import Mathlib

/-!
Shallow embedding of `src/command/agent/alloc_endpoint.go`: the HTTP
allocation-endpoint dispatch layer (List, Get, Stop, Restart, Signal,
GarbageCollect, GarbageCollectAll, Stats, Snapshot verbs), together with
theorems settling the specification claims about it.

Go errors are modelled as an inductive `GoErr`; machine state threaded by
pointer mutation in Go is made explicit (the verbs return, alongside the
result, the list of RPC calls issued, so that "no RPC was made" is a
provable statement).
-/

namespace AllocEndpoint

/-- HTTP request method, as compared against by the Go handlers. -/
inductive Method
  | GET | POST | PUT | DELETE | HEAD | OPTIONS
deriving DecidableEq, Repr

/-- `const allocNotFoundErr = "allocation not found"` from alloc_endpoint.go. -/
def allocNotFoundErr : String := "allocation not found"

/-- `const resourceNotFoundErr = "resource not found"` from alloc_endpoint.go. -/
def resourceNotFoundErr : String := "resource not found"

/-- The `ErrInvalidMethod` message used with `CodedError(405, ...)`. -/
def errInvalidMethod : String := "Invalid method"

/-- The message of the local `CodedError(400, ...)` produced when no RPC
handler is available. -/
def noRouteErr : String := "No local Node and node_id not provided"

/-- Go `error` values that flow through the endpoint code.
`coded` is `CodedError(code, msg)`; `noNodeConn` and `unknownAlloc` are the
two backend error conditions recognized structurally by
`structs.IsErrNoNodeConn` / `structs.IsErrUnknownAllocation`;
`permissionDenied` is `structs.ErrPermissionDenied`; `plain` is any other
error (e.g. `fmt.Errorf`, JSON decode errors). -/
inductive GoErr
  | coded (code : Nat) (msg : String)
  | noNodeConn (msg : String)
  | unknownAlloc (msg : String)
  | permissionDenied
  | plain (msg : String)
deriving DecidableEq, Repr

/-- `err.Error()`: the message carried by a Go error. -/
def GoErr.errorMsg : GoErr → String
  | .coded _ m => m
  | .noNodeConn m => m
  | .unknownAlloc m => m
  | .permissionDenied => "Permission denied"
  | .plain m => m

/-- `structs.IsErrNoNodeConn`: structural recognition of the
"no connection to target node" backend condition. -/
def isErrNoNodeConn : GoErr → Bool
  | .noNodeConn _ => true
  | _ => false

/-- `structs.IsErrUnknownAllocation`: structural recognition of the
"allocation unknown to target" backend condition. -/
def isErrUnknownAllocation : GoErr → Bool
  | .unknownAlloc _ => true
  | _ => false

/-- The triple returned by `s.rpcHandlerForAlloc` / `s.rpcHandlerForNode`:
which transports may serve the request.  The resolver itself lives outside
this source file; the verbs only consume the triple, so it is an input. -/
structure Flags where
  useLocalClient : Bool
  useClientRPC : Bool
  useServerRPC : Bool
deriving DecidableEq, Repr

/-- Which transport an RPC call went through. -/
inductive TransportKind
  | localClient   -- s.agent.Client().ClientRPC
  | clientRPC     -- s.agent.Client().RPC
  | serverRPC     -- s.agent.Server().RPC
deriving DecidableEq, Repr

/-- A record of one RPC call issued by a verb: transport, fully-qualified
method name, and the request argument struct passed. -/
structure Call (A : Type) where
  transport : TransportKind
  method : String
  args : A
deriving DecidableEq, Repr

/-- The three transports available to a verb, each taking a method name and
an args struct and returning either the filled reply or a Go error. -/
structure Backend (A R : Type) where
  clientLocal : String → A → Except GoErr R
  clientRemote : String → A → Except GoErr R
  server : String → A → Except GoErr R

/-- The if/else-if transport-selection chain shared verbatim by
`ClientGCRequest`, `allocRestart`, `allocGC`, `allocSignal`, `allocStats`:
try local client, then direct client RPC, then server RPC, else fail with
`CodedError(400, "No local Node and node_id not provided")`.  Returns the
raw (unnormalized) outcome and the list of RPC calls issued. -/
def dispatchRPC {A R : Type} (b : Backend A R) (flags : Flags)
    (localName remoteName : String) (args : A) :
    Except GoErr R × List (Call A) :=
  if flags.useLocalClient then
    (b.clientLocal localName args, [⟨.localClient, localName, args⟩])
  else if flags.useClientRPC then
    (b.clientRemote remoteName args, [⟨.clientRPC, remoteName, args⟩])
  else if flags.useServerRPC then
    (b.server remoteName args, [⟨.serverRPC, remoteName, args⟩])
  else
    (.error (.coded 400 noRouteErr), [])

/-- The error-normalization step applied after the RPC by `allocRestart`,
`allocGC`, `allocSignal` and `allocStats`:
`if IsErrNoNodeConn(rpcErr) || IsErrUnknownAllocation(rpcErr)
 { rpcErr = CodedError(404, rpcErr.Error()) }`. -/
def normalizeAllocErr {R : Type} : Except GoErr R → Except GoErr R
  | .ok r => .ok r
  | .error e =>
    if isErrNoNodeConn e || isErrUnknownAllocation e then
      .error (.coded 404 e.errorMsg)
    else
      .error e

/-- The error-normalization step applied by `ClientGCRequest`
(GarbageCollectAll): only `IsErrNoNodeConn` is checked. -/
def normalizeNodeErr {R : Type} : Except GoErr R → Except GoErr R
  | .ok r => .ok r
  | .error e =>
    if isErrNoNodeConn e then .error (.coded 404 e.errorMsg) else .error e

/-- An abstract JSON request body as the caller may supply it: the fields
that any of the endpoint bodies could mention.  Decoding into a Go target
struct keeps only the fields the target struct declares. -/
structure ReqBody where
  taskName : String := ""
  signal : String := ""
  allocID : String := ""
deriving DecidableEq, Repr

/-- `structs.AllocRestartRequest`: alloc id plus the task to restart. -/
structure AllocRestartRequest where
  allocID : String
  taskName : String
deriving DecidableEq, Repr

/-- `structs.AllocSignalRequest`: alloc id, signal name, task.  The body is
decoded straight into this struct (so a body can set `allocID`), after which
the handler overwrites `AllocID` with the path-derived id. -/
structure AllocSignalRequest where
  allocID : String
  signal : String
  task : String
deriving DecidableEq, Repr

/-- `structs.AllocSpecificRequest`: just the alloc id (used by gc). -/
structure AllocSpecificRequest where
  allocID : String
deriving DecidableEq, Repr

/-- `structs.NodeSpecificRequest`: just the node id (used by gc-all). -/
structure NodeSpecificRequest where
  nodeID : String
deriving DecidableEq, Repr

/-- `cstructs.AllocStatsRequest`: alloc id plus optional task filter. -/
structure AllocStatsRequest where
  allocID : String
  task : String
deriving DecidableEq, Repr

/-- `structs.GenericResponse`: an opaque acknowledgement envelope. -/
structure GenericResponse where
  writeIndex : Nat := 0
deriving DecidableEq, Repr

/-- `cstructs.AllocStatsResponse`: envelope whose `Stats` field the stats
verb projects out. -/
structure AllocStatsResponse (S : Type) where
  stats : S
deriving DecidableEq, Repr

/-- The `AllocRestartRequest` built by `allocRestart`: `AllocID` comes
from the URL path only; the decoded body struct declares only `TaskName`,
so a body-supplied alloc id never reaches the request. -/
def restartArgs (allocID : String) (reqBody : ReqBody) : AllocRestartRequest :=
  let args0 : AllocRestartRequest := { allocID := allocID, taskName := "" }
  if reqBody.taskName ≠ "" then { args0 with taskName := reqBody.taskName }
  else args0

/-- `func (s *HTTPServer) allocRestart`: builds an `AllocRestartRequest`
from the path-derived alloc id (see `restartArgs`), dispatches
`Allocations.Restart` / `ClientAllocations.Restart`, and normalizes the
error.  `body` is the outcome of `json.NewDecoder(req.Body).Decode`:
`.error msg` when the body is not valid JSON (including an empty body,
which yields io.EOF).  The handler never inspects `method`. -/
def allocRestart (b : Backend AllocRestartRequest GenericResponse)
    (flags : Flags) (_method : Method) (allocID : String)
    (body : Except String ReqBody) :
    Except GoErr GenericResponse × List (Call AllocRestartRequest) :=
  match body with
  | .error msg => (.error (.plain msg), [])
  | .ok reqBody =>
    let d := dispatchRPC b flags "Allocations.Restart"
      "ClientAllocations.Restart" (restartArgs allocID reqBody)
    (normalizeAllocErr d.1, d.2)

/-- The `AllocSignalRequest` built by `allocSignal`: `decodeBody` fills
the whole struct from the body (so a body may set `AllocID`), after which
`args.AllocID = allocID` overwrites it with the path-derived id. -/
def signalArgs (allocID : String) (reqBody : ReqBody) : AllocSignalRequest :=
  let args0 : AllocSignalRequest :=
    { allocID := reqBody.allocID, signal := reqBody.signal,
      task := reqBody.taskName }
  { args0 with allocID := allocID }

/-- `func (s *HTTPServer) allocSignal`: requires POST or PUT (else 405),
decodes the body into the full `AllocSignalRequest` (a body may set
`AllocID`), then overwrites `args.AllocID` with the path-derived id
(see `signalArgs`), dispatches `Allocations.Signal` /
`ClientAllocations.Signal`, and normalizes the error.  A body decode
failure is wrapped in `CodedError(400, "Failed to decode body: ...")`. -/
def allocSignal (b : Backend AllocSignalRequest GenericResponse)
    (flags : Flags) (method : Method) (allocID : String)
    (body : Except String ReqBody) :
    Except GoErr GenericResponse × List (Call AllocSignalRequest) :=
  if ¬(method = .POST ∨ method = .PUT) then
    (.error (.coded 405 errInvalidMethod), [])
  else
    match body with
    | .error msg =>
      (.error (.coded 400 ("Failed to decode body: " ++ msg)), [])
    | .ok reqBody =>
      let d := dispatchRPC b flags "Allocations.Signal"
        "ClientAllocations.Signal" (signalArgs allocID reqBody)
      (normalizeAllocErr d.1, d.2)

/-- `func (s *HTTPServer) allocGC`: builds an `AllocSpecificRequest` from
the path-derived alloc id, dispatches `Allocations.GarbageCollect` /
`ClientAllocations.GarbageCollect`, normalizes the error, and returns
`nil` as the response body (modelled as `Unit`). -/
def allocGC (b : Backend AllocSpecificRequest GenericResponse)
    (flags : Flags) (allocID : String) :
    Except GoErr Unit × List (Call AllocSpecificRequest) :=
  let d := dispatchRPC b flags "Allocations.GarbageCollect"
    "ClientAllocations.GarbageCollect"
    ({ allocID := allocID } : AllocSpecificRequest)
  match normalizeAllocErr d.1 with
  | .ok _ => (.ok (), d.2)
  | .error e => (.error e, d.2)

/-- `func (s *HTTPServer) ClientGCRequest` (GarbageCollectAll): builds a
`NodeSpecificRequest` from the `node_id` query parameter, dispatches
`Allocations.GarbageCollectAll` / `ClientAllocations.GarbageCollectAll`
via `rpcHandlerForNode`, and normalizes the error checking ONLY
`IsErrNoNodeConn` (unlike the alloc-scoped verbs, `IsErrUnknownAllocation`
is not checked here). -/
def ClientGCRequest (b : Backend NodeSpecificRequest GenericResponse)
    (flags : Flags) (nodeID : String) :
    Except GoErr Unit × List (Call NodeSpecificRequest) :=
  let d := dispatchRPC b flags "Allocations.GarbageCollectAll"
    "ClientAllocations.GarbageCollectAll"
    ({ nodeID := nodeID } : NodeSpecificRequest)
  match normalizeNodeErr d.1 with
  | .ok _ => (.ok (), d.2)
  | .error e => (.error e, d.2)

/-- `func (s *HTTPServer) allocStats`: builds an `AllocStatsRequest` from
the path-derived alloc id and the `task` query parameter, dispatches
`Allocations.Stats` / `ClientAllocations.Stats`, normalizes the error, and
returns the inner `reply.Stats` payload. -/
def allocStats {S : Type} (b : Backend AllocStatsRequest (AllocStatsResponse S))
    (flags : Flags) (allocID : String) (task : String) :
    Except GoErr S × List (Call AllocStatsRequest) :=
  let d := dispatchRPC b flags "Allocations.Stats" "ClientAllocations.Stats"
    ({ allocID := allocID, task := task } : AllocStatsRequest)
  match normalizeAllocErr d.1 with
  | .ok r => (.ok r.stats, d.2)
  | .error e => (.error e, d.2)

/-- Counters of side-effecting collaborator invocations made by the
snapshot verb, so that "no context resolution / RPC / filesystem access
happened" is provable. -/
structure SnapshotCalls where
  contextResolutions : Nat
  fsHandleLookups : Nat
  rpcCalls : Nat
  streamAttempts : Nat
deriving DecidableEq, Repr

/-- `func (s *HTTPServer) allocSnapshot`: validates the caller-presented
migrate token first; on failure returns `structs.ErrPermissionDenied`
without any further work.  On success obtains the allocation filesystem
handle via `GetAllocFS` (an error there becomes
`fmt.Errorf(allocNotFoundErr)`) and streams the snapshot to the response
(an error there becomes `fmt.Errorf("error making snapshot: %v", err)`).
`validate` is `ValidateMigrateToken`, `getAllocFS` returns an opaque
handle, `snapshotFS` is `allocFS.Snapshot(resp)`.  The verb never calls
`rpcHandlerForAlloc` and issues no RPC. -/
def allocSnapshot (validate : String → String → Bool)
    (getAllocFS : String → Except String Nat)
    (snapshotFS : Nat → Except String Unit)
    (allocID secret : String) : Except GoErr Unit × SnapshotCalls :=
  if ¬ validate allocID secret then
    (.error .permissionDenied, ⟨0, 0, 0, 0⟩)
  else
    match getAllocFS allocID with
    | .error _ => (.error (.plain allocNotFoundErr), ⟨0, 1, 0, 0⟩)
    | .ok fs =>
      match snapshotFS fs with
      | .error cause =>
        (.error (.plain ("error making snapshot: " ++ cause)), ⟨0, 1, 0, 1⟩)
      | .ok _ => (.ok (), ⟨0, 1, 0, 1⟩)

/-- Modelled from the spec: the caller's transport layer maps a classified
error to its final HTTP status — `CodedError` carries its own code,
`ErrPermissionDenied` is 403, a plain error whose message is
`allocNotFoundErr` is 404, and every other unclassified error is 500
(Internal).  This boundary mapping lives outside this source file; the
spec fixes it in §6/§7 ("403 bad token, 404 not found, 500 stream error"). -/
def boundaryStatus : GoErr → Nat
  | .coded c _ => c
  | .permissionDenied => 403
  | .plain m => if m = allocNotFoundErr then 404 else 500
  | .noNodeConn _ => 500
  | .unknownAlloc _ => 500

/-- `structs.Job`, restricted to the field this endpoint touches: the
optionally-compressed `Payload` byte blob. -/
structure Job where
  payload : List Nat
deriving DecidableEq, Repr

/-- `structs.Allocation`, restricted to what `allocGet` touches: the
optional `Job` and whether the event-message projection has been
computed on it. -/
structure Allocation where
  id : String
  job : Option Job
  eventMessagesComputed : Bool
deriving DecidableEq, Repr

/-- Modelled from the spec: `Allocation.SetEventDisplayMessages` (defined
in the external structs package) computes the human-readable event-message
projection on the allocation at read time; it does not touch the job
payload. -/
def Allocation.setEventDisplayMessages (a : Allocation) : Allocation :=
  { a with eventMessagesComputed := true }

/-- Modelled from the spec: `Allocation.Copy` (defined in the external
structs package) produces a deep copy — "it is applied to a copy; the
original in any shared cache must never be mutated" — so a subsequent
write to the copy's `Job.Payload` leaves the source allocation intact.
In this immutable embedding the copy is the same value; what matters is
that `allocGet` records, in `AllocGetResult`, which object its later
mutations targeted. -/
def Allocation.copy (a : Allocation) : Allocation := a

/-- The observable outcome of `allocGet` on a present allocation:
`returned` is the value handed back to the HTTP layer, `original` is the
state of `out.Alloc` (the object obtained from the RPC reply) after the
handler ran — they alias when no copy was made — and `copied` /
`decodeCalls` record whether `Copy` / `snappy.Decode` ran. -/
structure AllocGetResult where
  returned : Allocation
  original : Allocation
  copied : Bool
  decodeCalls : Nat
deriving DecidableEq, Repr

/-- `func (s *HTTPServer) allocGet`: GET only (else 405); a nil reply
alloc is `CodedError(404, "alloc not found")`; a non-empty `Job.Payload`
is decoded with `snappy.Decode` (opaque codec `dec`) into a copy of the
allocation, whose payload is replaced by the decoded bytes; finally the
event-message projection is computed on the (possibly copied) result.
With an empty or absent payload no decode and no copy happen, and the
returned object is the reply allocation itself.  `parseHandled` is the
boolean result of `s.parse` (true when the parse already wrote a
response, making the handler return `(nil, nil)`, modelled `.ok none`);
`rpc` is the outcome of the `Alloc.GetAlloc` call. -/
def allocGet (dec : List Nat → Except String (List Nat))
    (method : Method) (parseHandled : Bool)
    (rpc : Except GoErr (Option Allocation)) :
    Except GoErr (Option AllocGetResult) :=
  if method ≠ .GET then .error (.coded 405 errInvalidMethod)
  else if parseHandled then .ok none
  else
    match rpc with
    | .error e => .error e
    | .ok none => .error (.coded 404 "alloc not found")
    | .ok (some replyAlloc) =>
      match replyAlloc.job with
      | some j =>
        if j.payload ≠ [] then
          match dec j.payload with
          | .error msg => .error (.plain msg)
          | .ok decoded =>
            let c := replyAlloc.copy
            let c := { c with job := some { j with payload := decoded } }
            let c := c.setEventDisplayMessages
            .ok (some { returned := c, original := replyAlloc,
                        copied := true, decodeCalls := 1 })
        else
          let r := replyAlloc.setEventDisplayMessages
          .ok (some { returned := r, original := r,
                      copied := false, decodeCalls := 0 })
      | none =>
        let r := replyAlloc.setEventDisplayMessages
        .ok (some { returned := r, original := r,
                    copied := false, decodeCalls := 0 })

/-- `structs.AllocListStub`, restricted to what `AllocsRequest` touches. -/
structure AllocListStub where
  id : String
  eventMessagesComputed : Bool
deriving DecidableEq, Repr

/-- Modelled from the spec: `AllocListStub.SetEventDisplayMessages`
(external structs package) computes the event-message projection on a
listing stub at read time. -/
def AllocListStub.setEventDisplayMessages (a : AllocListStub) : AllocListStub :=
  { a with eventMessagesComputed := true }

/-- `func (s *HTTPServer) AllocsRequest`: GET only (else 405); on RPC
success a nil `out.Allocations` slice is replaced with an empty one, the
event-message projection is computed on every stub, and the slice is
returned.  `rpc` is the outcome of `Alloc.List`, with `none` standing for
a nil `Allocations` slice in the reply; `.ok none` in the result stands
for the `(nil, nil)` early return when `s.parse` handled the request. -/
def AllocsRequest (method : Method) (parseHandled : Bool)
    (rpc : Except GoErr (Option (List AllocListStub))) :
    Except GoErr (Option (List AllocListStub)) :=
  if method ≠ .GET then .error (.coded 405 errInvalidMethod)
  else if parseHandled then .ok none
  else
    match rpc with
    | .error e => .error e
    | .ok allocs =>
      let allocs := match allocs with | none => [] | some l => l
      .ok (some (allocs.map AllocListStub.setEventDisplayMessages))

/-- `structs.AllocStopRequest` / `structs.AllocStopResponse` envelopes. -/
structure AllocStopRequest where
  allocID : String
deriving DecidableEq, Repr

/-- `func (s *HTTPServer) allocStop`: POST or PUT only (else 405); always
issues the server-directed `Alloc.Stop` RPC with the path-derived alloc
id and returns the reply envelope alongside the error. -/
def allocStop {R : Type} (rpc : String → AllocStopRequest → Except GoErr R)
    (method : Method) (allocID : String) :
    Except GoErr R × List (Call AllocStopRequest) :=
  if ¬(method = .POST ∨ method = .PUT) then
    (.error (.coded 405 errInvalidMethod), [])
  else
    let args : AllocStopRequest := { allocID := allocID }
    (rpc "Alloc.Stop" args, [⟨.serverRPC, "Alloc.Stop", args⟩])

/-- A test backend whose every transport succeeds with the same reply,
used to instantiate theorems at concrete inputs. -/
def constBackend (A R : Type) (r : R) : Backend A R :=
  ⟨fun _ _ => .ok r, fun _ _ => .ok r, fun _ _ => .ok r⟩

/-- A test backend whose every transport fails with the same error, used
to instantiate theorems at concrete inputs. -/
def errBackend (A R : Type) (e : GoErr) : Backend A R :=
  ⟨fun _ _ => .error e, fun _ _ => .error e, fun _ _ => .error e⟩

/-- C10: a Restart request whose body fails JSON decoding (including an
empty body, where the decoder reports io.EOF) gets the decode error back
unwrapped, and no RPC call is issued — a body is effectively mandatory
even though its only field, `TaskName`, is optional. -/
theorem restart_invalid_body_returns_decode_error_no_rpc
    (b : Backend AllocRestartRequest GenericResponse) (flags : Flags)
    (m : Method) (allocID msg : String) :
    allocRestart b flags m allocID (.error msg) = (.error (.plain msg), []) :=
  rfl

/-- C2: for Restart and Signal, the alloc id in every RPC request issued
is the path-derived one; a body-supplied `AllocationID` never overrides
it, whatever the body contains (Restart decodes into a struct without an
alloc-id field; Signal overwrites `args.AllocID` after decoding). -/
theorem restart_signal_path_id_precedence
    (bR : Backend AllocRestartRequest GenericResponse)
    (bS : Backend AllocSignalRequest GenericResponse)
    (flags : Flags) (mR mS : Method) (allocID : String)
    (rb : ReqBody) (body : Except String ReqBody) :
    (restartArgs allocID rb).allocID = allocID ∧
    (signalArgs allocID rb).allocID = allocID ∧
    ((allocRestart bR flags mR allocID body).2.all
      (fun c => c.args.allocID == allocID)) = true ∧
    ((allocSignal bS flags mS allocID body).2.all
      (fun c => c.args.allocID == allocID)) = true := by
  obtain ⟨l, c, s⟩ := flags
  refine ⟨?_, rfl, ?_, ?_⟩
  · simp only [restartArgs]
    split <;> rfl
  · cases body with
    | error msg => rfl
    | ok rb' =>
      cases l <;> cases c <;> cases s <;>
        simp [allocRestart, dispatchRPC, restartArgs] <;>
        split <;> simp
  · cases body with
    | error msg =>
      simp only [allocSignal]
      split <;> simp
    | ok rb' =>
      cases l <;> cases c <;> cases s <;>
        simp [allocSignal, dispatchRPC, signalArgs] <;>
        split <;> simp

/-- C3: when context resolution yields no execution context (all three
handler flags false), each of Restart, Signal, GarbageCollect,
GarbageCollectAll and Stats fails with `CodedError(400, "No local Node
and node_id not provided")` and issues no RPC call. -/
theorem no_route_bad_request_no_rpc
    (bR : Backend AllocRestartRequest GenericResponse)
    (bS : Backend AllocSignalRequest GenericResponse)
    (bG : Backend AllocSpecificRequest GenericResponse)
    (bGA : Backend NodeSpecificRequest GenericResponse)
    (S : Type) (bSt : Backend AllocStatsRequest (AllocStatsResponse S))
    (m : Method) (allocID nodeID task : String) (rb : ReqBody)
    (hm : m = .POST ∨ m = .PUT) :
    allocRestart bR ⟨false, false, false⟩ m allocID (.ok rb) =
      (.error (.coded 400 noRouteErr), []) ∧
    allocSignal bS ⟨false, false, false⟩ m allocID (.ok rb) =
      (.error (.coded 400 noRouteErr), []) ∧
    allocGC bG ⟨false, false, false⟩ allocID =
      (.error (.coded 400 noRouteErr), []) ∧
    ClientGCRequest bGA ⟨false, false, false⟩ nodeID =
      (.error (.coded 400 noRouteErr), []) ∧
    allocStats bSt ⟨false, false, false⟩ allocID task =
      (.error (.coded 400 noRouteErr), []) := by
  refine ⟨?_, ?_, rfl, rfl, rfl⟩
  · simp only [allocRestart, dispatchRPC]
    rfl
  · rcases hm with h | h <;> subst h <;> rfl

/-- Closed witness for `no_route_bad_request_no_rpc` at concrete inputs. -/
theorem no_route_bad_request_no_rpc_witness :
    allocRestart (constBackend AllocRestartRequest GenericResponse {})
      ⟨false, false, false⟩ .POST "a1" (.ok {}) =
      (.error (.coded 400 noRouteErr), []) ∧
    allocSignal (constBackend AllocSignalRequest GenericResponse {})
      ⟨false, false, false⟩ .POST "a1" (.ok {}) =
      (.error (.coded 400 noRouteErr), []) ∧
    allocGC (constBackend AllocSpecificRequest GenericResponse {})
      ⟨false, false, false⟩ "a1" =
      (.error (.coded 400 noRouteErr), []) ∧
    ClientGCRequest (constBackend NodeSpecificRequest GenericResponse {})
      ⟨false, false, false⟩ "n1" =
      (.error (.coded 400 noRouteErr), []) ∧
    allocStats (constBackend AllocStatsRequest (AllocStatsResponse Nat) ⟨0⟩)
      ⟨false, false, false⟩ "a1" "t" =
      (.error (.coded 400 noRouteErr), []) :=
  no_route_bad_request_no_rpc
    (constBackend AllocRestartRequest GenericResponse {})
    (constBackend AllocSignalRequest GenericResponse {})
    (constBackend AllocSpecificRequest GenericResponse {})
    (constBackend NodeSpecificRequest GenericResponse {})
    Nat (constBackend AllocStatsRequest (AllocStatsResponse Nat) ⟨0⟩)
    .POST "a1" "n1" "t" {} (Or.inl rfl)

/-- C7: a List request that succeeds returns a present (never nil) list —
in particular the empty list when there are zero allocations — and the
event-message projection is computed on every returned stub. -/
theorem list_zero_allocs_empty_and_projection
    (allocs : Option (List AllocListStub)) (l : List AllocListStub)
    (h : allocs = none ∨ allocs = some []) :
    AllocsRequest .GET false (.ok allocs) = .ok (some []) ∧
    AllocsRequest .GET false (.ok (some l)) =
      .ok (some (l.map AllocListStub.setEventDisplayMessages)) ∧
    ((l.map AllocListStub.setEventDisplayMessages).all
      (fun a => a.eventMessagesComputed)) = true := by
  refine ⟨?_, rfl, ?_⟩
  · rcases h with h | h <;> subst h <;> rfl
  · simp [List.all_map, AllocListStub.setEventDisplayMessages, Function.comp]

/-- Closed witness for `list_zero_allocs_empty_and_projection`. -/
theorem list_zero_allocs_empty_and_projection_witness :
    AllocsRequest .GET false (.ok none) = .ok (some []) ∧
    AllocsRequest .GET false (.ok (some [⟨"a1", false⟩])) =
      .ok (some ([⟨"a1", false⟩].map AllocListStub.setEventDisplayMessages)) ∧
    (([(⟨"a1", false⟩ : AllocListStub)].map
        AllocListStub.setEventDisplayMessages).all
      (fun a => a.eventMessagesComputed)) = true :=
  list_zero_allocs_empty_and_projection none [⟨"a1", false⟩] (Or.inl rfl)

/-- C9: a Get of an allocation whose `Job` is absent or whose `JobPayload`
is empty performs no decompression and makes no copy: the returned object
is the reply allocation itself (only the read-time event-message
projection is computed on it), with the job payload untouched. -/
theorem get_empty_payload_no_decode_no_copy
    (dec : List Nat → Except String (List Nat)) (a : Allocation)
    (h : a.job = none ∨ a.job = some { payload := [] }) :
    allocGet dec .GET false (.ok (some a)) =
      .ok (some { returned := a.setEventDisplayMessages,
                  original := a.setEventDisplayMessages,
                  copied := false, decodeCalls := 0 }) ∧
    (a.setEventDisplayMessages).job = a.job := by
  obtain ⟨id, job, ev⟩ := a
  refine ⟨?_, rfl⟩
  rcases h with h | h <;> simp only [] at h <;> subst h <;> rfl

/-- Closed witness for `get_empty_payload_no_decode_no_copy`. -/
theorem get_empty_payload_no_decode_no_copy_witness :
    allocGet (fun l => .ok l) .GET false
        (.ok (some ⟨"a1", some { payload := [] }, false⟩)) =
      .ok (some { returned :=
                    Allocation.setEventDisplayMessages
                      ⟨"a1", some { payload := [] }, false⟩,
                  original :=
                    Allocation.setEventDisplayMessages
                      ⟨"a1", some { payload := [] }, false⟩,
                  copied := false, decodeCalls := 0 }) ∧
    (Allocation.setEventDisplayMessages
      ⟨"a1", some { payload := [] }, false⟩).job =
      (⟨"a1", some { payload := [] }, false⟩ : Allocation).job :=
  get_empty_payload_no_decode_no_copy (fun l => .ok l)
    ⟨"a1", some { payload := [] }, false⟩ (Or.inr rfl)

/-- C6: a Get of an allocation with a non-empty `JobPayload` that decodes
successfully returns a copy whose payload is exactly the decoded bytes
(with the event-message projection computed on the copy), while the
allocation obtained from the RPC reply is left unchanged — `original`
is the input allocation itself, payload included. -/
theorem get_payload_decompressed_into_copy
    (dec : List Nat → Except String (List Nat)) (a : Allocation)
    (j : Job) (d : List Nat)
    (hj : a.job = some j) (hne : j.payload ≠ [])
    (hdec : dec j.payload = .ok d) :
    allocGet dec .GET false (.ok (some a)) =
      .ok (some { returned :=
                    Allocation.setEventDisplayMessages
                      { a with job := some { payload := d } },
                  original := a, copied := true, decodeCalls := 1 }) ∧
    (Allocation.setEventDisplayMessages
      { a with job := some { payload := d } }).job = some { payload := d } ∧
    a.job = some j := by
  obtain ⟨id, job, ev⟩ := a
  obtain ⟨p⟩ := j
  simp only [] at hj
  subst hj
  refine ⟨?_, rfl, rfl⟩
  simp [allocGet, hne, hdec, Allocation.copy]

/-- Closed witness for `get_payload_decompressed_into_copy`, with a
concrete codec that reverses the byte list. -/
theorem get_payload_decompressed_into_copy_witness :
    allocGet (fun l => .ok l.reverse) .GET false
        (.ok (some ⟨"a1", some { payload := [7, 8] }, false⟩)) =
      .ok (some { returned :=
                    Allocation.setEventDisplayMessages
                      { (⟨"a1", some { payload := [7, 8] }, false⟩ : Allocation)
                        with job := some { payload := [8, 7] } },
                  original := ⟨"a1", some { payload := [7, 8] }, false⟩,
                  copied := true, decodeCalls := 1 }) ∧
    (Allocation.setEventDisplayMessages
      { (⟨"a1", some { payload := [7, 8] }, false⟩ : Allocation) with
        job := some { payload := [8, 7] } }).job = some { payload := [8, 7] } ∧
    (⟨"a1", some { payload := [7, 8] }, false⟩ : Allocation).job =
      some { payload := [7, 8] } :=
  get_payload_decompressed_into_copy (fun l => .ok l.reverse)
    ⟨"a1", some { payload := [7, 8] }, false⟩ { payload := [7, 8] } [8, 7]
    rfl (by decide) rfl

/-- C4: a Snapshot request whose migrate token fails validation returns
`ErrPermissionDenied` with zero context resolutions, zero filesystem
handle lookups, zero RPC calls and zero stream attempts: token validation
happens before any other work. -/
theorem snapshot_invalid_token_permission_denied_no_work
    (validate : String → String → Bool)
    (getAllocFS : String → Except String Nat)
    (snapshotFS : Nat → Except String Unit)
    (allocID secret : String)
    (h : validate allocID secret = false) :
    allocSnapshot validate getAllocFS snapshotFS allocID secret =
      (.error .permissionDenied, ⟨0, 0, 0, 0⟩) := by
  simp [allocSnapshot, h]

/-- Closed witness for `snapshot_invalid_token_permission_denied_no_work`. -/
theorem snapshot_invalid_token_permission_denied_no_work_witness :
    allocSnapshot (fun _ _ => false) (fun _ => .ok 0) (fun _ => .ok ())
        "a1" "tok" =
      (.error .permissionDenied, ⟨0, 0, 0, 0⟩) :=
  snapshot_invalid_token_permission_denied_no_work
    (fun _ _ => false) (fun _ => .ok 0) (fun _ => .ok ()) "a1" "tok" rfl

/-- The stream-failure message produced by `allocSnapshot` is never the
`allocNotFoundErr` constant (their lengths differ), so the boundary
classifies it Internal rather than NotFound. -/
theorem snapshot_stream_msg_ne_allocNotFound (cause : String) :
    "error making snapshot: " ++ cause ≠ allocNotFoundErr := by
  intro h
  have hlen := congrArg String.length h
  rw [String.length_append] at hlen
  have h1 : ("error making snapshot: " : String).length = 23 := rfl
  have h2 : allocNotFoundErr.length = 20 := rfl
  rw [h1, h2] at hlen
  omega

/-- C5: with a valid migrate token, a failure to obtain the allocation
filesystem handle yields the plain error `"allocation not found"`, which
the boundary classifies as 404 NotFound; a failure while streaming yields
`"error making snapshot: <cause>"` with the underlying cause attached,
which the boundary classifies as 500 Internal. -/
theorem snapshot_fs_notfound_and_stream_internal
    (validate : String → String → Bool)
    (gfs1 gfs2 : String → Except String Nat)
    (sfs : Nat → Except String Unit)
    (allocID secret e : String) (fs : Nat) (cause : String)
    (hv : validate allocID secret = true)
    (h1 : gfs1 allocID = .error e)
    (h2 : gfs2 allocID = .ok fs)
    (h3 : sfs fs = .error cause) :
    (allocSnapshot validate gfs1 sfs allocID secret =
       (.error (.plain allocNotFoundErr), ⟨0, 1, 0, 0⟩) ∧
     boundaryStatus (.plain allocNotFoundErr) = 404) ∧
    (allocSnapshot validate gfs2 sfs allocID secret =
       (.error (.plain ("error making snapshot: " ++ cause)), ⟨0, 1, 0, 1⟩) ∧
     boundaryStatus (.plain ("error making snapshot: " ++ cause)) = 500) := by
  refine ⟨⟨?_, rfl⟩, ⟨?_, ?_⟩⟩
  · simp [allocSnapshot, hv, h1]
  · simp [allocSnapshot, hv, h2, h3]
  · simp [boundaryStatus, snapshot_stream_msg_ne_allocNotFound cause]

/-- Closed witness for `snapshot_fs_notfound_and_stream_internal`. -/
theorem snapshot_fs_notfound_and_stream_internal_witness :
    (allocSnapshot (fun _ _ => true) (fun _ => .error "no fs")
        (fun _ => .error "disk full") "a1" "tok" =
       (.error (.plain allocNotFoundErr), ⟨0, 1, 0, 0⟩) ∧
     boundaryStatus (.plain allocNotFoundErr) = 404) ∧
    (allocSnapshot (fun _ _ => true) (fun _ => .ok 7)
        (fun _ => .error "disk full") "a1" "tok" =
       (.error (.plain ("error making snapshot: " ++ "disk full")),
        ⟨0, 1, 0, 1⟩) ∧
     boundaryStatus (.plain ("error making snapshot: " ++ "disk full")) =
       500) :=
  snapshot_fs_notfound_and_stream_internal
    (fun _ _ => true) (fun _ => .error "no fs") (fun _ => .ok 7)
    (fun _ => .error "disk full") "a1" "tok" "no fs" 7 "disk full"
    rfl rfl rfl rfl

/-- C1 counterexample: `ClientGCRequest` (the GarbageCollectAll verb)
does not surface a backend error recognized as "allocation unknown to
target" as a 404 — it propagates it unchanged, because the verb checks
only `IsErrNoNodeConn`. -/
theorem gcall_unknown_allocation_not_404 :
    (ClientGCRequest
        (errBackend NodeSpecificRequest GenericResponse
          (.unknownAlloc "alloc unknown"))
        ⟨true, false, false⟩ "node1").1 =
      .error (.unknownAlloc "alloc unknown") ∧
    isErrUnknownAllocation (.unknownAlloc "alloc unknown") = true ∧
    (ClientGCRequest
        (errBackend NodeSpecificRequest GenericResponse
          (.unknownAlloc "alloc unknown"))
        ⟨true, false, false⟩ "node1").1 ≠
      .error (.coded 404 "alloc unknown") := by
  refine ⟨rfl, rfl, ?_⟩
  intro h
  exact GoErr.noConfusion (Except.error.inj h)

/-- C1 amended: for Restart, Signal, GarbageCollect and Stats, a backend
RPC error structurally recognized as "no connection to target node" or
"allocation unknown to target" surfaces as `CodedError(404, original
message)`; for GarbageCollectAll only the no-connection condition is
normalized to 404, and an allocation-unknown error propagates as-is. -/
theorem dispatch_verbs_backend_error_404
    (bR : Backend AllocRestartRequest GenericResponse)
    (bS : Backend AllocSignalRequest GenericResponse)
    (bG : Backend AllocSpecificRequest GenericResponse)
    (bGA bGA' : Backend NodeSpecificRequest GenericResponse)
    (S : Type) (bSt : Backend AllocStatsRequest (AllocStatsResponse S))
    (flags : Flags) (m : Method) (allocID nodeID task : String)
    (rb : ReqBody) (e enc eua : GoErr)
    (hm : m = .POST ∨ m = .PUT)
    (he : isErrNoNodeConn e = true ∨ isErrUnknownAllocation e = true)
    (henc : isErrNoNodeConn enc = true)
    (heua : isErrUnknownAllocation eua = true)
    (hR : (dispatchRPC bR flags "Allocations.Restart"
            "ClientAllocations.Restart" (restartArgs allocID rb)).1 =
          .error e)
    (hS : (dispatchRPC bS flags "Allocations.Signal"
            "ClientAllocations.Signal" (signalArgs allocID rb)).1 =
          .error e)
    (hG : (dispatchRPC bG flags "Allocations.GarbageCollect"
            "ClientAllocations.GarbageCollect"
            ({ allocID := allocID } : AllocSpecificRequest)).1 = .error e)
    (hSt : (dispatchRPC bSt flags "Allocations.Stats"
            "ClientAllocations.Stats"
            ({ allocID := allocID, task := task } : AllocStatsRequest)).1 =
           .error e)
    (hGA : (dispatchRPC bGA flags "Allocations.GarbageCollectAll"
            "ClientAllocations.GarbageCollectAll"
            ({ nodeID := nodeID } : NodeSpecificRequest)).1 = .error enc)
    (hGA' : (dispatchRPC bGA' flags "Allocations.GarbageCollectAll"
            "ClientAllocations.GarbageCollectAll"
            ({ nodeID := nodeID } : NodeSpecificRequest)).1 = .error eua) :
    (allocRestart bR flags m allocID (.ok rb)).1 =
      .error (.coded 404 e.errorMsg) ∧
    (allocSignal bS flags m allocID (.ok rb)).1 =
      .error (.coded 404 e.errorMsg) ∧
    (allocGC bG flags allocID).1 = .error (.coded 404 e.errorMsg) ∧
    (allocStats bSt flags allocID task).1 =
      .error (.coded 404 e.errorMsg) ∧
    (ClientGCRequest bGA flags nodeID).1 =
      .error (.coded 404 enc.errorMsg) ∧
    (ClientGCRequest bGA' flags nodeID).1 = .error eua := by
  have hnorm : ∀ (R : Type), normalizeAllocErr (R := R) (.error e) =
      .error (.coded 404 e.errorMsg) := by
    intro R
    rcases he with h | h <;> simp [normalizeAllocErr, h]
  have heua' : isErrNoNodeConn eua = false := by
    cases eua <;> simp_all [isErrNoNodeConn, isErrUnknownAllocation]
  refine ⟨?_, ?_, ?_, ?_, ?_, ?_⟩
  · show normalizeAllocErr (dispatchRPC bR flags "Allocations.Restart"
      "ClientAllocations.Restart" (restartArgs allocID rb)).1 = _
    rw [hR]
    exact hnorm _
  · rcases hm with h | h <;> subst h
    · show normalizeAllocErr (dispatchRPC bS flags "Allocations.Signal"
        "ClientAllocations.Signal" (signalArgs allocID rb)).1 = _
      rw [hS]
      exact hnorm _
    · show normalizeAllocErr (dispatchRPC bS flags "Allocations.Signal"
        "ClientAllocations.Signal" (signalArgs allocID rb)).1 = _
      rw [hS]
      exact hnorm _
  · have : normalizeAllocErr (dispatchRPC bG flags
        "Allocations.GarbageCollect" "ClientAllocations.GarbageCollect"
        ({ allocID := allocID } : AllocSpecificRequest)).1 =
        .error (.coded 404 e.errorMsg) := by
      rw [hG]; exact hnorm _
    simp only [allocGC, this]
  · have : normalizeAllocErr (dispatchRPC bSt flags "Allocations.Stats"
        "ClientAllocations.Stats"
        ({ allocID := allocID, task := task } : AllocStatsRequest)).1 =
        .error (.coded 404 e.errorMsg) := by
      rw [hSt]; exact hnorm _
    simp only [allocStats, this]
  · have : normalizeNodeErr (dispatchRPC bGA flags
        "Allocations.GarbageCollectAll"
        "ClientAllocations.GarbageCollectAll"
        ({ nodeID := nodeID } : NodeSpecificRequest)).1 =
        .error (.coded 404 enc.errorMsg) := by
      rw [hGA]; simp [normalizeNodeErr, henc]
    simp only [ClientGCRequest, this]
  · have : normalizeNodeErr (dispatchRPC bGA' flags
        "Allocations.GarbageCollectAll"
        "ClientAllocations.GarbageCollectAll"
        ({ nodeID := nodeID } : NodeSpecificRequest)).1 = .error eua := by
      rw [hGA']; simp [normalizeNodeErr, heua']
    simp only [ClientGCRequest, this]

/-- Closed witness for `dispatch_verbs_backend_error_404` at concrete
inputs: a no-connection error for the four alloc-scoped verbs and for
GarbageCollectAll, plus an unknown-allocation error that GarbageCollectAll
passes through. -/
theorem dispatch_verbs_backend_error_404_witness :
    (allocRestart
        (errBackend AllocRestartRequest GenericResponse (.noNodeConn "nc"))
        ⟨true, false, false⟩ .POST "a1" (.ok {})).1 =
      .error (.coded 404 "nc") ∧
    (allocSignal
        (errBackend AllocSignalRequest GenericResponse (.noNodeConn "nc"))
        ⟨true, false, false⟩ .POST "a1" (.ok {})).1 =
      .error (.coded 404 "nc") ∧
    (allocGC
        (errBackend AllocSpecificRequest GenericResponse (.noNodeConn "nc"))
        ⟨true, false, false⟩ "a1").1 =
      .error (.coded 404 "nc") ∧
    (allocStats
        (errBackend AllocStatsRequest (AllocStatsResponse Nat)
          (.noNodeConn "nc"))
        ⟨true, false, false⟩ "a1" "t").1 =
      .error (.coded 404 "nc") ∧
    (ClientGCRequest
        (errBackend NodeSpecificRequest GenericResponse (.noNodeConn "nc"))
        ⟨true, false, false⟩ "n1").1 =
      .error (.coded 404 "nc") ∧
    (ClientGCRequest
        (errBackend NodeSpecificRequest GenericResponse
          (.unknownAlloc "ua"))
        ⟨true, false, false⟩ "n1").1 =
      .error (.unknownAlloc "ua") :=
  dispatch_verbs_backend_error_404
    (errBackend AllocRestartRequest GenericResponse (.noNodeConn "nc"))
    (errBackend AllocSignalRequest GenericResponse (.noNodeConn "nc"))
    (errBackend AllocSpecificRequest GenericResponse (.noNodeConn "nc"))
    (errBackend NodeSpecificRequest GenericResponse (.noNodeConn "nc"))
    (errBackend NodeSpecificRequest GenericResponse (.unknownAlloc "ua"))
    Nat
    (errBackend AllocStatsRequest (AllocStatsResponse Nat) (.noNodeConn "nc"))
    ⟨true, false, false⟩ .POST "a1" "n1" "t" {}
    (.noNodeConn "nc") (.noNodeConn "nc") (.unknownAlloc "ua")
    (Or.inl rfl) (Or.inl rfl) rfl rfl rfl rfl rfl rfl rfl rfl

/-- C8 counterexample: a Restart request with method GET is not rejected
with 405 — `allocRestart` performs no method check, so with a reachable
local client the RPC is issued and the call succeeds. -/
theorem restart_get_method_not_rejected :
    allocRestart (constBackend AllocRestartRequest GenericResponse {})
        ⟨true, false, false⟩ .GET "a1" (.ok {}) =
      (.ok {}, [⟨.localClient, "Allocations.Restart", ⟨"a1", ""⟩⟩]) ∧
    (allocRestart (constBackend AllocRestartRequest GenericResponse {})
        ⟨true, false, false⟩ .GET "a1" (.ok {})).1 ≠
      .error (.coded 405 errInvalidMethod) := by
  refine ⟨rfl, ?_⟩
  intro h
  exact Except.noConfusion
    (show Except.ok ({} : GenericResponse) =
      Except.error (GoErr.coded 405 errInvalidMethod) from h)

/-- C8 amended: the method-specific handlers Signal and Stop reject
unsupported methods with `CodedError(405, ErrInvalidMethod)` before doing
any work (as do the GET-only List and Get handlers), but Restart performs
no method check: its outcome is identical for every request method. -/
theorem method_checks_405_except_restart
    (bR : Backend AllocRestartRequest GenericResponse)
    (bS : Backend AllocSignalRequest GenericResponse)
    (R : Type) (stopRPC : String → AllocStopRequest → Except GoErr R)
    (dec : List Nat → Except String (List Nat))
    (flags : Flags) (mS mL m m' : Method) (allocID : String)
    (body : Except String ReqBody) (parseHandled : Bool)
    (rpcL : Except GoErr (Option (List AllocListStub)))
    (rpcG : Except GoErr (Option Allocation))
    (hmS : ¬(mS = .POST ∨ mS = .PUT)) (hmL : mL ≠ .GET) :
    allocSignal bS flags mS allocID body =
      (.error (.coded 405 errInvalidMethod), []) ∧
    allocStop stopRPC mS allocID =
      (.error (.coded 405 errInvalidMethod), []) ∧
    AllocsRequest mL parseHandled rpcL =
      .error (.coded 405 errInvalidMethod) ∧
    allocGet dec mL parseHandled rpcG =
      .error (.coded 405 errInvalidMethod) ∧
    allocRestart bR flags m allocID body =
      allocRestart bR flags m' allocID body := by
  refine ⟨?_, ?_, ?_, ?_, rfl⟩
  · simp [allocSignal, hmS]
  · simp [allocStop, hmS]
  · simp [AllocsRequest, hmL]
  · simp [allocGet, hmL]

/-- Closed witness for `method_checks_405_except_restart`, exercising the
cases the restart contrast turns on: Signal and Stop reject a GET with
405, the GET-only List and Get handlers reject a POST with 405, and
Restart treats GET and POST identically. -/
theorem method_checks_405_except_restart_witness :
    allocSignal (constBackend AllocSignalRequest GenericResponse {})
        ⟨true, false, false⟩ .GET "a1" (.ok {}) =
      (.error (.coded 405 errInvalidMethod), []) ∧
    allocStop (fun _ _ => .ok ({} : GenericResponse)) .GET "a1" =
      (.error (.coded 405 errInvalidMethod), []) ∧
    AllocsRequest .POST false (.ok none) =
      .error (.coded 405 errInvalidMethod) ∧
    allocGet (fun l => .ok l) .POST false (.ok none) =
      .error (.coded 405 errInvalidMethod) ∧
    allocRestart (constBackend AllocRestartRequest GenericResponse {})
        ⟨true, false, false⟩ .GET "a1" (.ok {}) =
      allocRestart (constBackend AllocRestartRequest GenericResponse {})
        ⟨true, false, false⟩ .POST "a1" (.ok {}) :=
  method_checks_405_except_restart
    (constBackend AllocRestartRequest GenericResponse {})
    (constBackend AllocSignalRequest GenericResponse {})
    GenericResponse (fun _ _ => .ok ({} : GenericResponse))
    (fun l => .ok l) ⟨true, false, false⟩ .GET .POST .GET .POST "a1"
    (.ok {}) false (.ok none) (.ok none) (by decide) (by decide)

end AllocEndpoint
